import Mathlib

/-! The ben10 model viewer (`src/ben10/src/App.jsx`)

A shallow embedding of the single component `App`: its refs and React state,
the objects built by the mount effect, and the callbacks the effect registers
(`changeBackgrounds`, the three loader callbacks, `animate`, `handleResize`,
and the teardown closure).

Conventions of the embedding.

* JavaScript numbers are modelled as exact rationals (`ℚ`); surface sizes
  (`clientWidth`, `clientHeight`) are natural numbers, colour values are
  natural numbers.
* Calls into three.js and the platform whose effect lies outside the component
  (`controls.update()`, `renderer.render`, `dispose`, `loader.load`,
  `requestAnimationFrame`) are recorded, in program order, in `State.calls`.
* `rendererRef.current` is assigned once (line 52) to the renderer that the
  closures capture as `renderer`; the model keeps that one object in the
  `Viewer` record and reads `rendererRef.current` through it.
-/

namespace Ben10

/-- A three.js `Vector3`. -/
structure Vec3 where
  x : ℚ
  y : ℚ
  z : ℚ
deriving DecidableEq

/-- The fields of a three.js `Object3D` that the component reads or writes
(`gltf.scene`, kept in `modelRef.current`). `uuid` is the identity of the
JavaScript object. -/
structure Object3D where
  uuid : Nat
  position : Vec3
  scale : Vec3
  rotationY : ℚ
deriving DecidableEq

/-- A `THREE.PerspectiveCamera`. `projectionUpdates` counts the calls of
`updateProjectionMatrix`. -/
structure Camera where
  fov : ℚ
  aspect : ℚ
  near : ℚ
  far : ℚ
  position : Vec3
  projectionUpdates : Nat
deriving DecidableEq

/-- A `THREE.WebGLRenderer`: constructor option, `setSize`, `setPixelRatio`
and `setClearColor` values. -/
structure Renderer where
  antialias : Bool
  width : Nat
  height : Nat
  pixelRatio : ℚ
  clearColor : Nat
deriving DecidableEq

/-- The `OrbitControls` instance. -/
structure Controls where
  enableDamping : Bool
  target : Vec3
deriving DecidableEq

/-- Children of the `THREE.Scene`. A loaded model root is referred to by the
identity of its object; its mutable fields live in `modelRef`. -/
inductive SceneNode where
  | camera
  | ambientLight (color : Nat) (intensity : ℚ)
  | directionalLight (color : Nat) (intensity : ℚ) (position : Vec3)
  | object (uuid : Nat)
deriving DecidableEq

/-- Lines written to the console. The progress line is kept as the two numbers
it is computed from; the failure line as a marker. -/
inductive LogEntry where
  | error (msg : String)
  | log (msg : String)
  | progress (loaded total : Nat)
  | loadError
deriving DecidableEq

/-- Calls into three.js and the platform, in the order the component issues
them. `render` carries the yaw of the attached model as the draw call sees
it. -/
inductive Call where
  | load (url : String)
  | controlsUpdate
  | render (modelYaw : Option ℚ)
  | requestAnimationFrame
  | rendererDispose
  | controlsDispose
deriving DecidableEq

/-- The locals of one run of the mount effect, captured by its closures. -/
structure Viewer where
  sizes : Nat × Nat
  scene : List SceneNode
  camera : Camera
  renderer : Renderer
  controls : Controls
deriving DecidableEq

/-- The component instance together with the part of the window it touches. -/
structure State where
  backgroundClass : String
  modelRef : Option Object3D
  viewer : Option Viewer
  resizeListener : Bool
  scheduledFrames : Nat
  console : List LogEntry
  calls : List Call
deriving DecidableEq

/-- The value of `rendererRef.current`. -/
def State.rendererRef (s : State) : Option Renderer :=
  s.viewer.map (fun v => v.renderer)

/-- The component before its effect has run: `useRef(null)` three times and
`useState` with its initial class (lines 8-13). -/
def init : State :=
  { backgroundClass := "bg-pink-200"
    modelRef := none
    viewer := none
    resizeListener := false
    scheduledFrames := 0
    console := []
    calls := [] }

/-- `changeBackgrounds` (lines 18-23). -/
def changeBackgrounds (htmlColor : String) (threeColor : Nat) (s : State) : State :=
  { s with
    backgroundClass := htmlColor
    viewer := s.viewer.map (fun v =>
      { v with renderer := { v.renderer with clearColor := threeColor } }) }

/-- The three preset buttons (lines 145-162). -/
inductive Preset where
  | pink
  | dark
  | green
deriving DecidableEq

/-- First argument of the button handler. -/
def Preset.htmlColor : Preset → String
  | .pink => "bg-pink-100"
  | .dark => "bg-gray-900"
  | .green => "bg-green-100"

/-- Second argument of the button handler. -/
def Preset.threeColor : Preset → Nat
  | .pink => 0xf5e6e8
  | .dark => 0x222222
  | .green => 0xe0ffea

/-- The `onClick` of a preset button. -/
def click (p : Preset) (s : State) : State :=
  changeBackgrounds p.htmlColor p.threeColor s

/-- The quotient `sizes.width / sizes.height`. For a zero height JavaScript
yields `Infinity` or `NaN`, which `ℚ` does not represent; statements about the
aspect assume a non-zero height. -/
def aspectOf (w h : Nat) : ℚ := (w : ℚ) / (h : ℚ)

/-- The renderer as constructed and configured by lines 48-51. -/
def newRenderer (w h : Nat) (d : ℚ) : Renderer :=
  { antialias := true
    width := w
    height := h
    pixelRatio := min d 4
    clearColor := 0xf5e6e8 }

/-- `handleResize` (lines 101-110): `w`, `h` are the values read from
`canvas.clientWidth`, `canvas.clientHeight` and `d` is
`window.devicePixelRatio`. The closure exists only once the effect has built
the viewer. -/
def handleResize (w h : Nat) (d : ℚ) (s : State) : State :=
  match s.viewer with
  | none => s
  | some v =>
    { s with
      viewer := some
        { v with
          sizes := (w, h)
          camera := { v.camera with
            aspect := aspectOf w h
            projectionUpdates := v.camera.projectionUpdates + 1 }
          renderer := { v.renderer with
            width := w
            height := h
            pixelRatio := min d 2 } } }

/-- The increment of line 92. -/
def yawStep : ℚ := 5 / 1000

/-- `animate` (lines 90-98). -/
def animate (s : State) : State :=
  match s.viewer with
  | none => s
  | some _ =>
    let m := s.modelRef.map (fun o => { o with rotationY := o.rotationY + yawStep })
    { s with
      modelRef := m
      calls := s.calls ++
        [Call.controlsUpdate, Call.render (m.map (fun o => o.rotationY)),
          Call.requestAnimationFrame]
      scheduledFrames := s.scheduledFrames + 1 }

/-- The platform runs one callback scheduled with `requestAnimationFrame`. -/
def frame (s : State) : State :=
  if s.scheduledFrames = 0 then s
  else animate { s with scheduledFrames := s.scheduledFrames - 1 }

/-- The window dispatches a `resize` event. -/
def windowResize (w h : Nat) (d : ℚ) (s : State) : State :=
  if s.resizeListener then handleResize w h d s else s

/-- The success callback of `loader.load` (lines 71-80). `scene.add` detaches
the object from its parent before appending it. -/
def onLoad (gltfScene : Object3D) (s : State) : State :=
  match s.viewer with
  | none => s
  | some v =>
    { s with
      modelRef := some
        { gltfScene with scale := ⟨1, 1, 1⟩, position := ⟨0, 0, 0⟩ }
      viewer := some
        { v with
          scene := v.scene.filter (fun n => n ≠ SceneNode.object gltfScene.uuid)
            ++ [SceneNode.object gltfScene.uuid] }
      console := s.console ++ [LogEntry.log "3D model loaded successfully!"] }

/-- The progress callback (lines 81-83). -/
def onProgress (loaded total : Nat) (s : State) : State :=
  { s with console := s.console ++ [LogEntry.progress loaded total] }

/-- The failure callback (lines 84-86). -/
def onError (s : State) : State :=
  { s with console := s.console ++ [LogEntry.loadError] }

/-- The closure returned by the effect (lines 117-123). -/
def cleanup (s : State) : State :=
  match s.viewer with
  | none => s
  | some _ =>
    { s with
      resizeListener := false
      calls := s.calls ++ [Call.rendererDispose, Call.controlsDispose] }

/-- The return value of the effect when it runs to its end. -/
inductive Teardown where
  | removeListenerAndDispose
deriving DecidableEq

/-- Running the returned closure. -/
def Teardown.run : Teardown → State → State
  | .removeListenerAndDispose => cleanup

/-- The viewer as built by lines 37-64 for a surface of `w` by `h`. -/
def buildViewer (w h : Nat) (d : ℚ) : Viewer :=
  { sizes := (w, h)
    scene :=
      [SceneNode.camera, SceneNode.ambientLight 0xffffff (12 / 10),
        SceneNode.directionalLight 0xffffff (25 / 10) ⟨2, 5, 5⟩]
    camera :=
      { fov := 75
        aspect := aspectOf w h
        near := 1 / 10
        far := 100
        position := ⟨0, 3 / 2, 4⟩
        projectionUpdates := 0 }
    renderer := newRenderer w h d
    controls := { enableDamping := true, target := ⟨1, 1, 1⟩ } }

/-- The body of the mount effect (lines 27-124). `canvas` is
`canvasRef.current`: `none` for a missing element, otherwise the layout size
of the element, which both reads (lines 38-39 and 102-103) return. -/
def effect (canvas : Option (Nat × Nat)) (d : ℚ) (s : State) : State × Option Teardown :=
  match canvas with
  | none =>
    ({ s with console := s.console ++ [LogEntry.error "Canvas element not found!"] }, none)
  | some (w, h) =>
    let s1 : State :=
      { s with
        viewer := some (buildViewer w h d)
        calls := s.calls ++ [Call.load "/free_porsche_911_carrera_4s.glb"] }
    let s2 : State := { s1 with resizeListener := true }
    let s3 := handleResize w h d s2
    let s4 := animate s3
    (s4, some Teardown.removeListenerAndDispose)

/-- The component after mounting on a surface of `w` by `h`. -/
def mounted (w h : Nat) (d : ℚ) : State :=
  (effect (some (w, h)) d init).1

/-- The viewer held by the mounted component: the one built by lines 37-64
after the call of `handleResize` at line 114. -/
def mountedViewer (w h : Nat) (d : ℚ) : Viewer :=
  { buildViewer w h d with
    camera := { (buildViewer w h d).camera with projectionUpdates := 1 }
    renderer := { newRenderer w h d with pixelRatio := min d 2 } }

/-- Events delivered to the component by the platform, the loader and the
user. -/
inductive Event where
  | frame
  | resize (w h : Nat) (d : ℚ)
  | progress (loaded total : Nat)
  | success (gltfScene : Object3D)
  | failure
  | select (p : Preset)
deriving DecidableEq

/-- The reaction to one event. -/
def step (s : State) : Event → State
  | .frame => frame s
  | .resize w h d => windowResize w h d s
  | .progress l t => onProgress l t s
  | .success g => onLoad g s
  | .failure => onError s
  | .select p => click p s

/-- The reaction to a sequence of events. -/
def run (s : State) (es : List Event) : State :=
  es.foldl step s

/-- The identities of the model roots among the children of the scene. -/
def modelRoots (v : Viewer) : List Nat :=
  v.scene.filterMap (fun n =>
    match n with
    | SceneNode.object u => some u
    | _ => none)

/-- A yaw advanced by `n` increments. -/
def turned (n : Nat) (o : Object3D) : Object3D :=
  { o with rotationY := o.rotationY + (n : ℚ) * yawStep }

/-! ## Auxiliary facts -/

theorem handleResize_of_viewer (w h : Nat) (d : ℚ) (s : State) (v : Viewer)
    (hv : s.viewer = some v) :
    handleResize w h d s =
      { s with
        viewer := some
          { v with
            sizes := (w, h)
            camera := { v.camera with
              aspect := aspectOf w h
              projectionUpdates := v.camera.projectionUpdates + 1 }
            renderer := { v.renderer with
              width := w
              height := h
              pixelRatio := min d 2 } } } := by
  simp [handleResize, hv]

theorem animate_of_viewer (s : State) (v : Viewer) (hv : s.viewer = some v) :
    animate s =
      { s with
        modelRef := s.modelRef.map (turned 1)
        calls := s.calls ++
          [Call.controlsUpdate,
            Call.render (s.modelRef.map (fun o => o.rotationY + yawStep)),
            Call.requestAnimationFrame]
        scheduledFrames := s.scheduledFrames + 1 } := by
  cases hm : s.modelRef <;> simp [animate, hv, hm, turned]

theorem mounted_eq (w h : Nat) (d : ℚ) :
    mounted w h d =
      { backgroundClass := "bg-pink-200"
        modelRef := none
        viewer := some (mountedViewer w h d)
        resizeListener := true
        scheduledFrames := 1
        console := []
        calls :=
          [Call.load "/free_porsche_911_carrera_4s.glb", Call.controlsUpdate,
            Call.render none, Call.requestAnimationFrame] } := by
  simp [mounted, effect, handleResize, animate, init, buildViewer, newRenderer,
    mountedViewer, aspectOf]

theorem step_resizeListener (s : State) (e : Event) (hl : s.resizeListener = false) :
    (step s e).resizeListener = false := by
  cases e with
  | frame =>
    simp only [step, frame]
    split
    · exact hl
    · simp only [animate]
      split <;> simp [hl]
  | resize w h d => simp [step, windowResize, hl]
  | progress l t => simp [step, onProgress, hl]
  | success g =>
    simp only [step, onLoad]
    split <;> simp [hl]
  | failure => simp [step, onError, hl]
  | select p => simp [step, click, changeBackgrounds, hl]

theorem run_resizeListener (es : List Event) :
    ∀ s : State, s.resizeListener = false → (run s es).resizeListener = false := by
  induction es with
  | nil => intro s hl; simpa [run] using hl
  | cons e es ih =>
    intro s hl
    simpa [run] using ih (step s e) (step_resizeListener s e hl)

theorem step_dispose_count (s : State) (e : Event) (c : Call)
    (hc : c = Call.rendererDispose ∨ c = Call.controlsDispose) :
    (step s e).calls.count c = s.calls.count c := by
  cases e with
  | frame =>
    simp only [step, frame]
    split
    · rfl
    · simp only [animate]
      split
      · rfl
      · rcases hc with rfl | rfl <;> simp [List.count_cons]
  | resize w h d =>
    simp only [step, windowResize, handleResize]
    split
    · split <;> rfl
    · rfl
  | progress l t => simp [step, onProgress]
  | success g =>
    simp only [step, onLoad]
    split <;> rfl
  | failure => simp [step, onError]
  | select p => simp [step, click, changeBackgrounds]

theorem run_dispose_count (es : List Event) (c : Call)
    (hc : c = Call.rendererDispose ∨ c = Call.controlsDispose) :
    ∀ s : State, (run s es).calls.count c = s.calls.count c := by
  induction es with
  | nil => intro s; simp [run]
  | cons e es ih =>
    intro s
    have h := ih (step s e)
    simp only [run, List.foldl_cons] at h ⊢
    rw [h, step_dispose_count s e c hc]

theorem click_fold_viewer (ps : List Preset) :
    ∀ s : State, s.viewer.isSome →
      (ps.foldl (fun t q => click q t) s).viewer.isSome := by
  induction ps with
  | nil => intro s hs; simpa using hs
  | cons q ps ih =>
    intro s hs
    apply ih
    cases hv : s.viewer with
    | none => simp [hv] at hs
    | some v => simp [click, changeBackgrounds, hv]

theorem progress_fold (ps : List (Nat × Nat)) :
    ∀ s : State,
      (ps.foldl (fun t q => onProgress q.1 q.2 t) s).modelRef = s.modelRef ∧
      (ps.foldl (fun t q => onProgress q.1 q.2 t) s).viewer = s.viewer := by
  induction ps with
  | nil => intro s; simp
  | cons q ps ih =>
    intro s
    have h := ih (onProgress q.1 q.2 s)
    simpa [onProgress] using h

theorem animate_iterate (n : Nat) :
    ∀ s : State, s.viewer.isSome →
      (animate^[n] s).modelRef = s.modelRef.map (turned n) ∧
      (animate^[n] s).viewer = s.viewer ∧
      (animate^[n] s).scheduledFrames = s.scheduledFrames + n := by
  induction n with
  | zero =>
    intro s _
    cases hm : s.modelRef <;> simp [turned, hm]
  | succ n ih =>
    intro s hs
    obtain ⟨v, hv⟩ := Option.isSome_iff_exists.mp hs
    have ha := animate_of_viewer s v hv
    have hs1 : (animate s).viewer.isSome := by rw [ha]; simp [hv]
    obtain ⟨h1, h2, h3⟩ := ih (animate s) hs1
    rw [Function.iterate_succ_apply, h1, h2, h3, ha]
    refine ⟨?_, rfl, ?_⟩
    · cases hm : s.modelRef with
      | none => simp
      | some o =>
        simp only [Option.map_some', turned, Nat.cast_one, one_mul, Nat.cast_add]
        congr 2
        ring
    · simp only
      omega

theorem frame_iterate (n : Nat) :
    ∀ s : State, s.viewer.isSome → 0 < s.scheduledFrames →
      (frame^[n] s).modelRef = s.modelRef.map (turned n) ∧
      (frame^[n] s).viewer = s.viewer ∧
      (frame^[n] s).scheduledFrames = s.scheduledFrames ∧
      (frame^[n] s).resizeListener = s.resizeListener := by
  induction n with
  | zero =>
    intro s _ _
    cases hm : s.modelRef <;> simp [turned, hm]
  | succ n ih =>
    intro s hs hf
    obtain ⟨v, hv⟩ := Option.isSome_iff_exists.mp hs
    have hne : s.scheduledFrames ≠ 0 := by omega
    have ha : frame s =
        { s with
          modelRef := s.modelRef.map (turned 1)
          calls := s.calls ++
            [Call.controlsUpdate,
              Call.render (s.modelRef.map (fun o => o.rotationY + yawStep)),
              Call.requestAnimationFrame]
          scheduledFrames := s.scheduledFrames - 1 + 1 } := by
      simp only [frame, if_neg hne]
      rw [animate_of_viewer _ v (by simpa using hv)]
    have hs1 : (frame s).viewer.isSome := by rw [ha]; simp [hv]
    have hf1 : 0 < (frame s).scheduledFrames := by rw [ha]; simp
    obtain ⟨h1, h2, h3, h4⟩ := ih (frame s) hs1 hf1
    rw [Function.iterate_succ_apply, h1, h2, h3, h4, ha]
    refine ⟨?_, rfl, ?_, rfl⟩
    · cases hm : s.modelRef with
      | none => simp
      | some o =>
        simp only [Option.map_some', turned, Nat.cast_one, one_mul, Nat.cast_add]
        congr 2
        ring
    · simp only
      omega

/-! ## Background presets -/

/-- C1: on a viewer whose renderer has been constructed, clicking preset `p`
leaves the container class equal to the class of `p` and the clear colour of the
renderer equal to the value of `p`; the three presets carry the classes and
values of the buttons; and after any run of clicks ending in `p` both the class
and the clear colour are those of `p`. -/
theorem C1_click_sets_class_and_clear_color (s : State) (r : Renderer)
    (hr : s.rendererRef = some r) :
    (∀ p : Preset,
      (click p s).backgroundClass = p.htmlColor ∧
      (click p s).rendererRef = some { r with clearColor := p.threeColor }) ∧
    (Preset.pink.htmlColor = "bg-pink-100" ∧ Preset.pink.threeColor = 0xf5e6e8 ∧
      Preset.dark.htmlColor = "bg-gray-900" ∧ Preset.dark.threeColor = 0x222222 ∧
      Preset.green.htmlColor = "bg-green-100" ∧ Preset.green.threeColor = 0xe0ffea) ∧
    (∀ (ps : List Preset) (p : Preset),
      (click p (ps.foldl (fun t q => click q t) s)).backgroundClass = p.htmlColor ∧
      (click p (ps.foldl (fun t q => click q t) s)).rendererRef.map
        (fun x => x.clearColor) = some p.threeColor) := by
  have hs : s.viewer.isSome := by
    cases hv : s.viewer with
    | none => simp [State.rendererRef, hv] at hr
    | some v => rfl
  refine ⟨?_, ⟨rfl, rfl, rfl, rfl, rfl, rfl⟩, ?_⟩
  · intro p
    cases hv : s.viewer with
    | none => simp [hv] at hs
    | some v =>
      have hvr : v.renderer = r := by simpa [State.rendererRef, hv] using hr
      simp [click, changeBackgrounds, State.rendererRef, hv, hvr]
  · intro ps p
    have h := click_fold_viewer ps s hs
    generalize ps.foldl (fun t q => click q t) s = t at h
    cases hv : t.viewer with
    | none => simp [hv] at h
    | some v => simp [click, changeBackgrounds, State.rendererRef, hv]

/-- Witness for C1 on the viewer mounted on a 1600 by 600 surface. -/
theorem C1_click_sets_class_and_clear_color_witness :
    (mounted 1600 600 1).rendererRef = some (mountedViewer 1600 600 1).renderer ∧
      (click Preset.dark (mounted 1600 600 1)).backgroundClass = "bg-gray-900" ∧
      (click Preset.dark (mounted 1600 600 1)).rendererRef =
        some { (mountedViewer 1600 600 1).renderer with clearColor := 0x222222 } ∧
      (click Preset.green (click Preset.dark (mounted 1600 600 1))).rendererRef.map
        (fun x => x.clearColor) = some 0xe0ffea :=
  have hr : (mounted 1600 600 1).rendererRef =
      some (mountedViewer 1600 600 1).renderer := by
    rw [mounted_eq]; rfl
  ⟨hr,
    ((C1_click_sets_class_and_clear_color _ _ hr).1 Preset.dark).1,
    ((C1_click_sets_class_and_clear_color _ _ hr).1 Preset.dark).2,
    ((C1_click_sets_class_and_clear_color _ _ hr).2.2 [Preset.dark] Preset.green).2⟩

/-- C7 (evaluation of the code): after mounting, the clear colour is the one of
the Pink preset but the container class is `bg-pink-200`, which differs from
the class `bg-pink-100` of the Pink preset, so clicking Pink right after mount
changes the container class. -/
theorem C7_initial_class_is_not_the_pink_preset (w h : Nat) (d : ℚ) :
    (mounted w h d).rendererRef.map (fun r => r.clearColor) =
        some Preset.pink.threeColor ∧
      (mounted w h d).backgroundClass = "bg-pink-200" ∧
      (mounted w h d).backgroundClass ≠ Preset.pink.htmlColor ∧
      (click Preset.pink (mounted w h d)).backgroundClass = "bg-pink-100" ∧
      (click Preset.pink (mounted w h d)).backgroundClass ≠
        (mounted w h d).backgroundClass ∧
      (click Preset.pink (mounted w h d)).rendererRef = (mounted w h d).rendererRef := by
  rw [mounted_eq]
  refine ⟨?_, rfl, ?_, rfl, ?_, ?_⟩
  · simp [State.rendererRef, mountedViewer, newRenderer, Preset.threeColor]
  · show "bg-pink-200" ≠ "bg-pink-100"
    decide
  · show "bg-pink-100" ≠ "bg-pink-200"
    decide
  · simp [click, changeBackgrounds, State.rendererRef, mountedViewer, newRenderer,
      Preset.threeColor]

/-! ## Pixel ratio and resize -/

/-- C2 (evaluation of the code): the renderer is constructed with pixel ratio
`min d 4` (line 50), but the effect ends by calling `handleResize` itself
(line 114), so once the mount effect has completed the pixel ratio is
`min d 2`; the two agree exactly when `d ≤ 2`. At a device pixel ratio of 3
the mounted renderer has pixel ratio 2 and not `min 3 4 = 3`. -/
theorem C2_mounted_pixel_ratio (w h : Nat) (d : ℚ) :
    (newRenderer w h d).pixelRatio = min d 4 ∧
      (mounted w h d).rendererRef.map (fun r => r.pixelRatio) = some (min d 2) ∧
      ((mounted w h d).rendererRef.map (fun r => r.pixelRatio) =
          some (newRenderer w h d).pixelRatio ↔ d ≤ 2) ∧
      (mounted 1600 600 3).rendererRef.map (fun r => r.pixelRatio) = some 2 ∧
      (mounted 1600 600 3).rendererRef.map (fun r => r.pixelRatio) ≠
        some (min 3 4) := by
  rw [mounted_eq, mounted_eq]
  refine ⟨rfl, by simp [State.rendererRef, mountedViewer], ?_, ?_, ?_⟩
  · simp only [State.rendererRef, Option.map_some', mountedViewer, newRenderer,
      Option.some.injEq]
    constructor
    · intro heq
      by_contra hd
      push_neg at hd
      rw [min_eq_right hd.le] at heq
      rcases le_total d 4 with h4 | h4
      · rw [min_eq_left h4] at heq; linarith
      · rw [min_eq_right h4] at heq; norm_num at heq
    · intro hd
      rw [min_eq_left hd, min_eq_left (by linarith)]
  · simp [State.rendererRef, mountedViewer]
    norm_num
  · simp [State.rendererRef, mountedViewer]
    norm_num

/-- C3: on a state holding a viewer, `handleResize` with a new surface of `w`
by `h` (`h` non-zero) sets the camera aspect to the quotient of `w` by `h`
(the number whose product with `h` is `w`) and leaves the orbit target and the
camera position as they were; mounting on 1600 by 600 gives aspect 8/3, target
(1,1,1) and position (0,3/2,4), and a resize event to 800 by 600 gives aspect
4/3 with the same target and position. -/
theorem C3_handleResize_aspect (s : State) (v : Viewer) (w h : Nat) (d : ℚ)
    (hv : s.viewer = some v) (hh : h ≠ 0) :
    (handleResize w h d s).viewer.map
        (fun x => (x.camera.aspect, x.controls.target, x.camera.position)) =
      some ((w : ℚ) / (h : ℚ), v.controls.target, v.camera.position) ∧
    (handleResize w h d s).viewer.map (fun x => x.camera.aspect * (h : ℚ)) =
      some (w : ℚ) ∧
    (mounted 1600 600 d).viewer.map
        (fun x => (x.camera.aspect, x.controls.target, x.camera.position)) =
      some (8 / 3, ⟨1, 1, 1⟩, ⟨0, 3 / 2, 4⟩) ∧
    (windowResize 800 600 d (mounted 1600 600 d)).viewer.map
        (fun x => (x.camera.aspect, x.controls.target, x.camera.position)) =
      some (4 / 3, ⟨1, 1, 1⟩, ⟨0, 3 / 2, 4⟩) := by
  have hq : (h : ℚ) ≠ 0 := by exact_mod_cast hh
  refine ⟨?_, ?_, ?_, ?_⟩
  · rw [handleResize_of_viewer w h d s v hv]
    simp [aspectOf]
  · rw [handleResize_of_viewer w h d s v hv]
    simp [aspectOf, hq]
  · rw [mounted_eq]
    simp [mountedViewer, buildViewer, aspectOf]
    norm_num
  · rw [mounted_eq]
    simp [windowResize, handleResize, mountedViewer, buildViewer, aspectOf]
    norm_num

/-- Witness for C3: a resize of the mounted viewer to 800 by 600. -/
theorem C3_handleResize_aspect_witness :
    (mounted 1600 600 1).viewer = some (mountedViewer 1600 600 1) ∧
      (600 : Nat) ≠ 0 ∧
      (handleResize 800 600 1 (mounted 1600 600 1)).viewer.map
          (fun x => x.camera.aspect * ((600 : Nat) : ℚ)) =
        some ((800 : Nat) : ℚ) :=
  ⟨by rw [mounted_eq], by decide,
    (C3_handleResize_aspect (mounted 1600 600 1) (mountedViewer 1600 600 1)
      800 600 1 (by rw [mounted_eq]) (by decide)).2.1⟩

/-- C9: a resize event on a state holding a viewer with the listener registered
leaves the renderer with pixel ratio `min d 2` and with the new width and
height of the surface, other renderer fields untouched; and for every `d`
above 2 the pixel ratio given at construction differs from the one given by a
resize. -/
theorem C9_resize_pixel_ratio_and_size (s : State) (v : Viewer) (w h : Nat) (d : ℚ)
    (hv : s.viewer = some v) (hl : s.resizeListener = true) :
    (windowResize w h d s).rendererRef =
        some { v.renderer with width := w, height := h, pixelRatio := min d 2 } ∧
      (∀ e : ℚ, 2 < e →
        (newRenderer w h e).pixelRatio = min e 4 ∧
        (windowResize w h e s).rendererRef.map (fun r => r.pixelRatio) = some (min e 2) ∧
        min e 4 ≠ min e 2) := by
  have hw : ∀ e : ℚ, windowResize w h e s = handleResize w h e s := by
    intro e; simp [windowResize, hl]
  refine ⟨?_, ?_⟩
  · rw [hw, handleResize_of_viewer w h d s v hv]; rfl
  · intro e he
    refine ⟨rfl, ?_, ?_⟩
    · rw [hw, handleResize_of_viewer w h e s v hv]; rfl
    · rw [min_eq_right he.le]
      rcases le_total e 4 with h4 | h4
      · rw [min_eq_left h4]; exact ne_of_gt he
      · rw [min_eq_right h4]; norm_num

/-- Witness for C9: a resize of the mounted viewer to 800 by 600 at device
pixel ratio 3. -/
theorem C9_resize_pixel_ratio_and_size_witness :
    (mounted 1600 600 3).viewer = some (mountedViewer 1600 600 3) ∧
      (mounted 1600 600 3).resizeListener = true ∧
      (windowResize 800 600 3 (mounted 1600 600 3)).rendererRef =
        some { (mountedViewer 1600 600 3).renderer with
          width := 800, height := 600, pixelRatio := min 3 2 } :=
  ⟨by rw [mounted_eq], by rw [mounted_eq],
    (C9_resize_pixel_ratio_and_size (mounted 1600 600 3) (mountedViewer 1600 600 3)
      800 600 3 (by rw [mounted_eq]) (by rw [mounted_eq])).1⟩

/-! ## Teardown -/

/-- C4: running the teardown on a state that holds a viewer removes the resize
listener and issues exactly one `dispose` on the renderer and one on the
controls; after any later sequence of events a resize event leaves the whole
state as it is (so camera aspect, renderer size and pixel ratio do not change)
and the two dispose counts are still one above their value before teardown.
For mount followed by unmount each count is exactly one. -/
theorem C4_teardown_removes_listener_and_disposes_once (s : State) (v : Viewer)
    (hv : s.viewer = some v) (es : List Event) (w h : Nat) (d : ℚ) :
    (cleanup s).resizeListener = false ∧
      (cleanup s).calls = s.calls ++ [Call.rendererDispose, Call.controlsDispose] ∧
      windowResize w h d (run (cleanup s) es) = run (cleanup s) es ∧
      (run (cleanup s) es).calls.count Call.rendererDispose =
        s.calls.count Call.rendererDispose + 1 ∧
      (run (cleanup s) es).calls.count Call.controlsDispose =
        s.calls.count Call.controlsDispose + 1 ∧
      (run (cleanup (mounted w h d)) es).calls.count Call.rendererDispose = 1 ∧
      (run (cleanup (mounted w h d)) es).calls.count Call.controlsDispose = 1 := by
  have hc : cleanup s =
      { s with
        resizeListener := false
        calls := s.calls ++ [Call.rendererDispose, Call.controlsDispose] } := by
    simp [cleanup, hv]
  have hl : (cleanup s).resizeListener = false := by rw [hc]
  have hm : cleanup (mounted w h d) =
      { mounted w h d with
        resizeListener := false
        calls := (mounted w h d).calls ++ [Call.rendererDispose, Call.controlsDispose] } := by
    rw [mounted_eq]; rfl
  refine ⟨hl, by rw [hc], ?_, ?_, ?_, ?_, ?_⟩
  · simp [windowResize, run_resizeListener es _ hl]
  · rw [run_dispose_count es _ (Or.inl rfl), hc]
    simp [List.count_append, List.count_cons]
  · rw [run_dispose_count es _ (Or.inr rfl), hc]
    simp [List.count_append, List.count_cons]
  · rw [run_dispose_count es _ (Or.inl rfl), hm, mounted_eq]
    simp [List.count_append, List.count_cons]
  · rw [run_dispose_count es _ (Or.inr rfl), hm, mounted_eq]
    simp [List.count_append, List.count_cons]

/-- Witness for C4: mount on 1600 by 600, unmount, then a frame followed by a
resize event to 800 by 600. -/
theorem C4_teardown_removes_listener_and_disposes_once_witness :
    (mounted 1600 600 1).viewer = some (mountedViewer 1600 600 1) ∧
      (cleanup (mounted 1600 600 1)).resizeListener = false ∧
      windowResize 800 600 1 (run (cleanup (mounted 1600 600 1)) [Event.frame]) =
        run (cleanup (mounted 1600 600 1)) [Event.frame] ∧
      (run (cleanup (mounted 1600 600 1)) [Event.frame]).calls.count
        Call.rendererDispose = 1 :=
  have h := C4_teardown_removes_listener_and_disposes_once (mounted 1600 600 1)
    (mountedViewer 1600 600 1) (by rw [mounted_eq]) [Event.frame] 800 600 1
  ⟨by rw [mounted_eq], h.1, h.2.2.1, by rw [h.2.2.2.1, mounted_eq]; rfl⟩

/-- C5 (counterexample): mount, load a model with yaw 0, unmount. The next
frame callback changes the yaw of the model to 1/200, and after two frame
callbacks have run (two further draw calls) a third one is still scheduled. -/
theorem C5_frame_after_unmount_counterexample :
    (cleanup (onLoad ⟨7, ⟨0, 0, 0⟩, ⟨1, 1, 1⟩, 0⟩ (mounted 1600 600 1))).modelRef.map
        (fun o => o.rotationY) = some 0 ∧
      (frame (cleanup (onLoad ⟨7, ⟨0, 0, 0⟩, ⟨1, 1, 1⟩, 0⟩ (mounted 1600 600 1)))).modelRef.map
        (fun o => o.rotationY) = some (1 / 200) ∧
      (frame (cleanup (onLoad ⟨7, ⟨0, 0, 0⟩, ⟨1, 1, 1⟩, 0⟩ (mounted 1600 600 1)))).modelRef ≠
        (cleanup (onLoad ⟨7, ⟨0, 0, 0⟩, ⟨1, 1, 1⟩, 0⟩ (mounted 1600 600 1))).modelRef ∧
      (frame (frame
        (cleanup (onLoad ⟨7, ⟨0, 0, 0⟩, ⟨1, 1, 1⟩, 0⟩ (mounted 1600 600 1))))).calls =
        (cleanup (onLoad ⟨7, ⟨0, 0, 0⟩, ⟨1, 1, 1⟩, 0⟩ (mounted 1600 600 1))).calls ++
          [Call.controlsUpdate, Call.render (some (1 / 200)), Call.requestAnimationFrame,
            Call.controlsUpdate, Call.render (some (1 / 100)), Call.requestAnimationFrame] ∧
      (frame (frame
        (cleanup (onLoad ⟨7, ⟨0, 0, 0⟩, ⟨1, 1, 1⟩, 0⟩ (mounted 1600 600 1))))).scheduledFrames
        = 1 := by
  rw [mounted_eq]
  simp [onLoad, cleanup, frame, animate, yawStep]
  norm_num

/-- C5 (amended): the teardown does not cancel the frame loop. On a state that
holds a viewer and has a frame callback scheduled, teardown leaves the
callback scheduled; every later frame callback adds the fixed increment to the
yaw of an attached model (and leaves a missing model missing) and schedules the
next callback, so after any number `n` of callbacks the yaw has advanced by `n`
increments and a callback is still scheduled. -/
theorem C5_frame_loop_survives_teardown (s : State) (v : Viewer)
    (hv : s.viewer = some v) (hf : 0 < s.scheduledFrames) (n : Nat) :
    (cleanup s).scheduledFrames = s.scheduledFrames ∧
      (frame^[n] (cleanup s)).modelRef = s.modelRef.map (turned n) ∧
      (frame^[n] (cleanup s)).scheduledFrames = s.scheduledFrames ∧
      (s.modelRef = none → (frame^[n] (cleanup s)).modelRef = none) ∧
      (∀ o : Object3D, s.modelRef = some o →
        (frame (cleanup s)).modelRef =
          some { o with rotationY := o.rotationY + 5 / 1000 }) := by
  have hc : cleanup s =
      { s with
        resizeListener := false
        calls := s.calls ++ [Call.rendererDispose, Call.controlsDispose] } := by
    simp [cleanup, hv]
  have hs : (cleanup s).viewer.isSome := by rw [hc]; simp [hv]
  have hf1 : 0 < (cleanup s).scheduledFrames := by rw [hc]; exact hf
  obtain ⟨h1, _, h3, _⟩ := frame_iterate n (cleanup s) hs hf1
  obtain ⟨k1, _, _, _⟩ := frame_iterate 1 (cleanup s) hs hf1
  have hm : (cleanup s).modelRef = s.modelRef := by rw [hc]
  have hsf : (cleanup s).scheduledFrames = s.scheduledFrames := by rw [hc]
  rw [hm] at h1 k1
  rw [hsf] at h3
  refine ⟨hsf, h1, h3, ?_, ?_⟩
  · intro hn
    rw [h1, hn]; rfl
  · intro o ho
    rw [Function.iterate_one] at k1
    rw [k1, ho]
    simp [turned, yawStep]

/-- Witness for C5: mount, load a model, unmount, then three frame
callbacks. -/
theorem C5_frame_loop_survives_teardown_witness :
    (onLoad ⟨7, ⟨0, 0, 0⟩, ⟨1, 1, 1⟩, 0⟩ (mounted 1600 600 1)).viewer =
        some { mountedViewer 1600 600 1 with
          scene := (mountedViewer 1600 600 1).scene ++ [SceneNode.object 7] } ∧
      0 < (onLoad ⟨7, ⟨0, 0, 0⟩, ⟨1, 1, 1⟩, 0⟩ (mounted 1600 600 1)).scheduledFrames ∧
      (frame^[3] (cleanup (onLoad ⟨7, ⟨0, 0, 0⟩, ⟨1, 1, 1⟩, 0⟩
        (mounted 1600 600 1)))).modelRef =
        (onLoad ⟨7, ⟨0, 0, 0⟩, ⟨1, 1, 1⟩, 0⟩ (mounted 1600 600 1)).modelRef.map (turned 3) ∧
      (frame^[3] (cleanup (onLoad ⟨7, ⟨0, 0, 0⟩, ⟨1, 1, 1⟩, 0⟩
        (mounted 1600 600 1)))).scheduledFrames = 1 :=
  have hv : (onLoad ⟨7, ⟨0, 0, 0⟩, ⟨1, 1, 1⟩, 0⟩ (mounted 1600 600 1)).viewer =
      some { mountedViewer 1600 600 1 with
        scene := (mountedViewer 1600 600 1).scene ++ [SceneNode.object 7] } := by
    rw [mounted_eq]; simp [onLoad, mountedViewer, buildViewer]
  have hf : 0 < (onLoad ⟨7, ⟨0, 0, 0⟩, ⟨1, 1, 1⟩, 0⟩
      (mounted 1600 600 1)).scheduledFrames := by
    rw [mounted_eq]; simp [onLoad]
  have h := C5_frame_loop_survives_teardown
    (onLoad ⟨7, ⟨0, 0, 0⟩, ⟨1, 1, 1⟩, 0⟩ (mounted 1600 600 1)) _ hv hf 3
  ⟨hv, hf, h.2.1, by rw [h.2.2.1, mounted_eq]; simp [onLoad]⟩

/-! ## Asset load -/

/-- C6: from the mounted state, any number of progress callbacks leaves the
model reference empty and the scene graph as mounted (no model root); a success
callback after them leaves exactly one model root in the scene graph, the one
delivered, and records it in `modelRef` with scale (1,1,1) and position
(0,0,0). -/
theorem C6_single_model_root_after_load (w h : Nat) (d : ℚ) (ps : List (Nat × Nat))
    (g : Object3D) :
    (ps.foldl (fun t q => onProgress q.1 q.2 t) (mounted w h d)).modelRef = none ∧
      (ps.foldl (fun t q => onProgress q.1 q.2 t) (mounted w h d)).viewer =
        (mounted w h d).viewer ∧
      (mounted w h d).viewer.map modelRoots = some [] ∧
      (onLoad g (ps.foldl (fun t q => onProgress q.1 q.2 t) (mounted w h d))).viewer.map
        modelRoots = some [g.uuid] ∧
      (onLoad g (ps.foldl (fun t q => onProgress q.1 q.2 t) (mounted w h d))).modelRef =
        some { uuid := g.uuid, position := ⟨0, 0, 0⟩, scale := ⟨1, 1, 1⟩,
               rotationY := g.rotationY } := by
  obtain ⟨h1, h2⟩ := progress_fold ps (mounted w h d)
  generalize ps.foldl (fun t q => onProgress q.1 q.2 t) (mounted w h d) = t at h1 h2
  rw [mounted_eq] at h1 h2 ⊢
  refine ⟨h1, h2, ?_, ?_, ?_⟩
  · simp [modelRoots, mountedViewer, buildViewer]
  · simp [onLoad, h2, modelRoots, mountedViewer, buildViewer]
  · simp [onLoad, h2]

/-! ## Missing surface -/

/-- C8: with no canvas element the effect appends one error line to the console,
changes nothing else and returns no teardown; run on the initial component it
leaves the renderer reference and the viewer empty, no library call issued (no
load, no frame loop), no frame scheduled and no resize listener. -/
theorem C8_missing_canvas_aborts (d : ℚ) (s : State) :
    effect none d s =
        ({ s with console := s.console ++ [LogEntry.error "Canvas element not found!"] },
          none) ∧
      (effect none d init).2 = none ∧
      (effect none d init).1.rendererRef = none ∧
      (effect none d init).1.viewer = none ∧
      (effect none d init).1.modelRef = none ∧
      (effect none d init).1.calls = [] ∧
      (effect none d init).1.scheduledFrames = 0 ∧
      (effect none d init).1.resizeListener = false ∧
      (effect none d init).1.console = [LogEntry.error "Canvas element not found!"] :=
  ⟨rfl, rfl, rfl, rfl, rfl, rfl, rfl, rfl, rfl⟩

/-! ## Frame loop -/

/-- C10: on a state holding a viewer, one run of `animate` adds the increment
5/1000 to the yaw of an attached model and leaves a missing model missing, then
issues one `controls.update()`, then one `render` (which sees the yaw already
advanced), then one `requestAnimationFrame`, and changes nothing else; after
`n` runs the yaw of a model attached at the start has grown by `n` times
5/1000. -/
theorem C10_animate_tick (s : State) (v : Viewer) (hv : s.viewer = some v) (n : Nat) :
    animate s =
        { s with
          modelRef := s.modelRef.map (fun o => { o with rotationY := o.rotationY + 5 / 1000 })
          calls := s.calls ++
            [Call.controlsUpdate,
              Call.render (s.modelRef.map (fun o => o.rotationY + 5 / 1000)),
              Call.requestAnimationFrame]
          scheduledFrames := s.scheduledFrames + 1 } ∧
      (s.modelRef = none → (animate s).modelRef = none) ∧
      (∀ o : Object3D, s.modelRef = some o →
        (animate s).modelRef = some { o with rotationY := o.rotationY + 5 / 1000 } ∧
        (animate^[n] s).modelRef =
          some { o with rotationY := o.rotationY + (n : ℚ) * (5 / 1000) }) ∧
      ((animate^[n] s).modelRef.isSome = s.modelRef.isSome) := by
  have ha := animate_of_viewer s v hv
  have hs : s.viewer.isSome := by simp [hv]
  obtain ⟨h1, _, _⟩ := animate_iterate n s hs
  refine ⟨?_, ?_, ?_, ?_⟩
  · rw [ha]
    cases hm : s.modelRef <;> simp [turned, yawStep]
  · intro hn
    rw [ha, hn]; rfl
  · intro o ho
    constructor
    · rw [ha, ho]; simp [turned, yawStep]
    · rw [h1, ho]; simp [turned, yawStep]
  · rw [h1]
    cases s.modelRef <;> rfl

/-- Witness for C10: the first tick after a model with yaw 0 has been loaded
into the mounted viewer. -/
theorem C10_animate_tick_witness :
    (onLoad ⟨7, ⟨0, 0, 0⟩, ⟨1, 1, 1⟩, 0⟩ (mounted 1600 600 1)).viewer =
        some { mountedViewer 1600 600 1 with
          scene := (mountedViewer 1600 600 1).scene ++ [SceneNode.object 7] } ∧
      (onLoad ⟨7, ⟨0, 0, 0⟩, ⟨1, 1, 1⟩, 0⟩ (mounted 1600 600 1)).modelRef =
        some { uuid := 7, position := ⟨0, 0, 0⟩, scale := ⟨1, 1, 1⟩, rotationY := 0 } ∧
      (animate (onLoad ⟨7, ⟨0, 0, 0⟩, ⟨1, 1, 1⟩, 0⟩ (mounted 1600 600 1))).modelRef =
        some { uuid := 7, position := ⟨0, 0, 0⟩, scale := ⟨1, 1, 1⟩,
               rotationY := 0 + 5 / 1000 } :=
  have hv : (onLoad ⟨7, ⟨0, 0, 0⟩, ⟨1, 1, 1⟩, 0⟩ (mounted 1600 600 1)).viewer =
      some { mountedViewer 1600 600 1 with
        scene := (mountedViewer 1600 600 1).scene ++ [SceneNode.object 7] } := by
    rw [mounted_eq]; simp [onLoad, mountedViewer, buildViewer]
  have hm : (onLoad ⟨7, ⟨0, 0, 0⟩, ⟨1, 1, 1⟩, 0⟩ (mounted 1600 600 1)).modelRef =
      some { uuid := 7, position := ⟨0, 0, 0⟩, scale := ⟨1, 1, 1⟩, rotationY := 0 } := by
    rw [mounted_eq]; simp [onLoad]
  ⟨hv, hm,
    ((C10_animate_tick (onLoad ⟨7, ⟨0, 0, 0⟩, ⟨1, 1, 1⟩, 0⟩ (mounted 1600 600 1))
      _ hv 1).2.2.1 _ hm).1⟩

end Ben10
